import Mathlib

/-
  Verification of the mt5-monitor backend against its specification.

  The development shallowly embeds the relevant parts of the backend
  (main-backend/app): the VS store (vs_manager.py), the Smart Cache
  (cache.py), the account-to-agent map (account_vps_cache.py), the
  Versus engine and scheduler (main.py), and the call contracts between
  main.py and versus_manager.py / aggregator.py.

  Conventions:
  - Python floats are modelled as exact rationals.
  - Python dicts are modelled as association lists with distinct keys.
  - Timestamps are rationals (seconds).
  - Keyword-argument binding of a Python call is modelled explicitly:
    a call binds only when every keyword names a parameter of the callee
    and all required parameters receive a value; otherwise it raises
    TypeError.  Attribute lookup on an object raises AttributeError when
    the name is not among the object's attributes.
-/

/-- Characters stripped by Python str.strip (ASCII whitespace). -/
def isPySpace (c : Char) : Bool :=
  c = ' ' || c = '\t' || c = '\n' || c = '\x0d' || c = '\x0b' || c = '\x0c'

/-- Python str.strip for ASCII strings. -/
def pyStrip (s : String) : String :=
  ⟨((s.data.dropWhile isPySpace).reverse.dropWhile isPySpace).reverse⟩

/-- Python str.upper for ASCII strings. -/
def pyUpper (s : String) : String := ⟨s.data.map Char.toUpper⟩

/-- Python round(x, d): round to d decimal digits, ties to even. -/
def pyRound (x : ℚ) (d : ℕ) : ℚ :=
  let m : ℚ := (10 : ℚ) ^ d
  let y : ℚ := x * m
  let n : ℤ := ⌊y⌋
  let r : ℚ := y - (n : ℚ)
  let n2 : ℤ :=
    if r < 1/2 then n
    else if r > 1/2 then n + 1
    else if n % 2 = 0 then n else n + 1
  (n2 : ℚ) / m

/-- List-level startswith on characters. -/
def listStarts : List Char → List Char → Bool
  | [], _ => true
  | _ :: _, [] => false
  | a :: as, b :: bs => a = b && listStarts as bs

/-- List-level substring containment (pattern, text). -/
def listHasSub (pat : List Char) : List Char → Bool
  | [] => listStarts pat []
  | c :: cs => listStarts pat (c :: cs) || listHasSub pat cs

/-- Python `pat in s` for strings. -/
def strContains (s pat : String) : Bool := listHasSub pat.data s.data

/-- Python s.startswith(pat). -/
def strStarts (s pat : String) : Bool := listStarts pat.data s.data

/- Association lists with the semantics of Python dicts (all maps the
   backend builds have pairwise distinct keys). -/

/-- Python dict lookup: d.get(k) / d[k]. -/
def alistGet {κ β : Type} [DecidableEq κ] : List (κ × β) → κ → Option β
  | [], _ => none
  | p :: t, k => if p.1 = k then some p.2 else alistGet t k

/-- Python `k in d`. -/
def alistHas {κ β : Type} [DecidableEq κ] (m : List (κ × β)) (k : κ) : Bool :=
  (alistGet m k).isSome

/-- Python dict assignment d[k] = v: replace in place, else append. -/
def alistSet {κ β : Type} [DecidableEq κ] : List (κ × β) → κ → β → List (κ × β)
  | [], k, v => [(k, v)]
  | p :: t, k, v => if p.1 = k then (k, v) :: t else p :: alistSet t k v

/-- Python `del d[k]` (for maps with distinct keys). -/
def alistDel {κ β : Type} [DecidableEq κ] : List (κ × β) → κ → List (κ × β)
  | [], _ => []
  | p :: t, k => if p.1 = k then t else p :: alistDel t k

/-- Keys of an association list. -/
def alistKeys {κ β : Type} (m : List (κ × β)) : List κ := m.map (·.1)


/- ===== VS store (vs_manager.py) ===== -/

/-- The in-memory state of VSManager: str(account_number) mapped to vs value. -/
abbrev VSMap := List (String × String)

/-- Result of VSManager.update_vs: the (success, message) pair and the
    resulting store. -/
structure VSUpdateOutcome where
  success : Bool
  message : String
  state : VSMap
  deriving DecidableEq, Repr

/-- Error returned when a VS group already holds two other accounts
    (string interpolation elided). -/
def vsGroupFullMessage : String :=
  "VS group already has 2 accounts assigned. Each VS group can only have 2 accounts."

/-- Accounts other than `account` currently holding value `v`
    (the comprehension in VSManager.update_vs). -/
def vsOthersWith (m : VSMap) (account : ℕ) (v : String) : List String :=
  (m.filter (fun p => p.2 = v && !(p.1 = toString account))).map (·.1)

/-- VSManager.update_vs(account_number, vs_value). -/
def update_vs (m : VSMap) (account : ℕ) (vs_value : String) : VSUpdateOutcome :=
  if pyStrip vs_value ≠ "" then
    let v := pyStrip vs_value
    if (vsOthersWith m account v).length ≥ 2 then
      ⟨false, vsGroupFullMessage, m⟩
    else
      ⟨true, "VS updated", alistSet m (toString account) v⟩
  else
    if alistHas m (toString account) then
      ⟨true, "VS removed", alistDel m (toString account)⟩
    else
      ⟨true, "No changes made", m⟩

/-- Accounts holding vs value `g`. -/
def vsGroupMembers (m : VSMap) (g : String) : List String :=
  (m.filter (fun p => p.2 = g)).map (·.1)

/-- The two-per-group invariant of the VS overlay. -/
def vsInvariant (m : VSMap) : Prop :=
  ∀ g : String, g ≠ "" → (vsGroupMembers m g).length ≤ 2

/-- Decidable check equivalent to `vsInvariant` (only values that occur
    in the map can name a non-empty group with members). -/
def vsInvariantCheck (m : VSMap) : Bool :=
  m.all (fun p => p.2 = "" || (vsGroupMembers m p.2).length ≤ 2)

/-- A VS store is well formed when its keys are pairwise distinct
    (always true of a Python dict). -/
abbrev vsWellFormed (m : VSMap) : Prop := (alistKeys m).Nodup

theorem vsInvariant_of_check {m : VSMap} (h : vsInvariantCheck m = true) :
    vsInvariant m := by
  intro g hg
  by_cases hmem : ∃ p ∈ m, p.2 = g
  · obtain ⟨p, hp, hpg⟩ := hmem
    have := (List.all_eq_true.mp h) p hp
    simp only [Bool.or_eq_true, decide_eq_true_eq] at this
    rcases this with h1 | h1
    · exact absurd (hpg ▸ h1) hg
    · simpa [hpg] using h1
  · have : vsGroupMembers m g = [] := by
      simp only [vsGroupMembers, List.map_eq_nil_iff, List.filter_eq_nil_iff]
      intro p hp
      simp only [decide_eq_true_eq]
      exact fun hpg => hmem ⟨p, hp, hpg⟩
    simp [this]

theorem length_vsOthersWith_le (m : VSMap) (a : ℕ) (g : String) :
    (vsOthersWith m a g).length ≤ (vsGroupMembers m g).length := by
  simp only [vsOthersWith, vsGroupMembers, List.length_map]
  apply List.Sublist.length_le
  apply List.monotone_filter_right
  intro p hp
  simp only [Bool.and_eq_true, decide_eq_true_eq] at hp ⊢
  exact hp.1

theorem vsGroup_alistSet (m : VSMap) (a : ℕ) (v g : String)
    (hnd : vsWellFormed m) :
    (vsGroupMembers (alistSet m (toString a) v) g).length =
      (vsOthersWith m a g).length + (if v = g then 1 else 0) := by
  simp only [vsGroupMembers, vsOthersWith, List.length_map]
  induction m with
  | nil =>
      by_cases hvg : v = g <;> simp [alistSet, hvg]
  | cons p t ih =>
      have hnd' : (alistKeys t).Nodup := (List.nodup_cons.mp hnd).2
      have hknot : p.1 ∉ alistKeys t := (List.nodup_cons.mp hnd).1
      by_cases hk : p.1 = toString a
      · have htail : ∀ x ∈ t, ¬ (x.1 = toString a) := by
          intro x hx hxa
          apply hknot
          rw [hk, ← hxa]
          exact List.mem_map_of_mem (·.1) hx
        have hfeq : t.filter (fun x => x.2 = g && !(x.1 = toString a))
            = t.filter (fun x => x.2 = g) := by
          apply List.filter_congr
          intro x hx
          simp [htail x hx]
        have hset : alistSet (p :: t) (toString a) v = (toString a, v) :: t := by
          simp [alistSet, hk]
        rw [hset]
        by_cases hvg : v = g <;> simp [List.filter_cons, hk, hvg, hfeq]
      · have hset : alistSet (p :: t) (toString a) v
            = p :: alistSet t (toString a) v := by
          simp [alistSet, hk]
        rw [hset, List.filter_cons, List.filter_cons]
        have hih := ih hnd'
        by_cases hpg : p.2 = g <;> simp [hk, hpg, hih] <;> omega

theorem vsGroup_alistDel_le (m : VSMap) (k : String) (g : String) :
    (vsGroupMembers (alistDel m k) g).length ≤ (vsGroupMembers m g).length := by
  induction m with
  | nil => simp [alistDel]
  | cons p t ih =>
      simp only [alistDel]
      by_cases hk : p.1 = k
      · simp only [if_pos hk, vsGroupMembers, List.filter_cons]
        split <;> simp <;> omega
      · simp only [if_neg hk, vsGroupMembers, List.filter_cons] at *
        split <;> simp_all <;> omega

theorem alistGet_eq_none_of_not_mem {κ β : Type} [DecidableEq κ]
    {m : List (κ × β)} {k : κ} (h : k ∉ alistKeys m) : alistGet m k = none := by
  induction m with
  | nil => rfl
  | cons p t ih =>
      simp only [alistKeys, List.map_cons, List.mem_cons, not_or] at h
      simp only [alistGet]
      rw [if_neg (fun hp => h.1 hp.symm)]
      exact ih h.2

theorem alistGet_alistDel_self {κ β : Type} [DecidableEq κ]
    {m : List (κ × β)} {k : κ} (hnd : (alistKeys m).Nodup) :
    alistGet (alistDel m k) k = none := by
  induction m with
  | nil => rfl
  | cons p t ih =>
      have hnd' : (alistKeys t).Nodup := (List.nodup_cons.mp hnd).2
      by_cases hk : p.1 = k
      · simp only [alistDel, if_pos hk]
        apply alistGet_eq_none_of_not_mem
        have := (List.nodup_cons.mp hnd).1
        simpa [alistKeys, hk] using this
      · simp only [alistDel, if_neg hk, alistGet, if_neg hk]
        exact ih hnd'

theorem alistSet_self_of_get {κ β : Type} [DecidableEq κ]
    {m : List (κ × β)} {k : κ} {v : β} (h : alistGet m k = some v) :
    alistSet m k v = m := by
  induction m with
  | nil => simp [alistGet] at h
  | cons p t ih =>
      by_cases hk : p.1 = k
      · simp only [alistGet, if_pos hk] at h
        have hp : p = (k, v) := by
          cases p; simp at hk h; simp [hk, h]
        simp [alistSet, hk, hp]
      · simp only [alistGet, if_neg hk] at h
        simp [alistSet, hk, ih h]

theorem vsOthersWith_succ_le {m : VSMap} {a : ℕ} {g : String}
    (h : alistGet m (toString a) = some g) :
    (vsOthersWith m a g).length + 1 ≤ (vsGroupMembers m g).length := by
  simp only [vsOthersWith, vsGroupMembers, List.length_map]
  induction m with
  | nil => simp [alistGet] at h
  | cons p t ih =>
      by_cases hk : p.1 = toString a
      · have hg2 : p.2 = g := by simpa [alistGet, hk] using h
        have hle := length_vsOthersWith_le t a g
        simp only [vsOthersWith, vsGroupMembers, List.length_map] at hle
        rw [List.filter_cons, List.filter_cons]
        simp [hk, hg2]
        omega
      · have h' : alistGet t (toString a) = some g := by
          simpa [alistGet, hk] using h
        have hih := ih h'
        rw [List.filter_cons, List.filter_cons]
        by_cases hpg : p.2 = g <;> simp [hk, hpg] <;> omega

/-- C6: VSManager.update_vs preserves the two-per-group invariant; a
    non-empty value held by two other accounts is refused with the
    specific error and leaves the store unchanged; an empty or blank
    value removes the account's membership. -/
theorem c6_vs_two_per_group :
    (∀ (m : VSMap) (a : ℕ) (v : String), vsWellFormed m → vsInvariant m →
        vsInvariant (update_vs m a v).state) ∧
    (∀ (m : VSMap) (a : ℕ) (v : String), pyStrip v ≠ "" →
        (vsOthersWith m a (pyStrip v)).length ≥ 2 →
        (update_vs m a v).success = false ∧
        (update_vs m a v).message = vsGroupFullMessage ∧
        (update_vs m a v).state = m) ∧
    (∀ (m : VSMap) (a : ℕ) (v : String), vsWellFormed m → pyStrip v = "" →
        alistGet (update_vs m a v).state (toString a) = none) := by
  refine ⟨?_, ?_, ?_⟩
  · intro m a v hwf hinv
    by_cases hs : pyStrip v ≠ ""
    · by_cases hfull : (vsOthersWith m a (pyStrip v)).length ≥ 2
      · simpa [update_vs, hs, hfull] using hinv
      · simp only [update_vs, if_pos hs, if_neg hfull]
        intro g hg
        rw [vsGroup_alistSet m a (pyStrip v) g hwf]
        by_cases hvg : pyStrip v = g
        · have := length_vsOthersWith_le m a g
          simp only [hvg] at hfull
          simp [hvg]
          omega
        · have h1 := length_vsOthersWith_le m a g
          have h2 := hinv g hg
          simp [hvg]
          omega
    · push_neg at hs
      by_cases hhas : alistHas m (toString a)
      · simp only [update_vs, hs, ite_not, if_pos rfl, if_pos hhas]
        intro g hg
        exact le_trans (vsGroup_alistDel_le m (toString a) g) (hinv g hg)
      · simpa [update_vs, hs, hhas] using hinv
  · intro m a v hs hfull
    simp [update_vs, hs, hfull]
  · intro m a v hwf hs
    by_cases hhas : alistHas m (toString a)
    · simp only [update_vs, hs, ite_not, if_pos rfl, if_pos hhas]
      exact alistGet_alistDel_self hwf
    · simp only [update_vs, hs, ite_not, if_pos rfl, if_neg hhas]
      exact Option.not_isSome_iff_eq_none.mp (by simpa [alistHas] using hhas)

/-- Witness for C6 at scenario 6 of the spec: group G1 holds accounts
    100 and 200; account 300 is refused; a blank value removes. -/
theorem c6_vs_two_per_group_witness :
    vsInvariant (update_vs [("100", "G1"), ("200", "G1")] 300 "G1").state ∧
    (update_vs [("100", "G1"), ("200", "G1")] 300 "G1").success = false ∧
    (update_vs [("100", "G1"), ("200", "G1")] 300 "G1").state =
      [("100", "G1"), ("200", "G1")] ∧
    alistGet (update_vs [("100", "G1"), ("200", "G1")] 100 "").state "100" = none :=
  ⟨c6_vs_two_per_group.1 [("100", "G1"), ("200", "G1")] 300 "G1" (by decide)
      (vsInvariant_of_check (by decide)),
   (c6_vs_two_per_group.2.1 [("100", "G1"), ("200", "G1")] 300 "G1" (by decide)
      (by decide)).1,
   (c6_vs_two_per_group.2.1 [("100", "G1"), ("200", "G1")] 300 "G1" (by decide)
      (by decide)).2.2,
   c6_vs_two_per_group.2.2 [("100", "G1"), ("200", "G1")] 100 "" (by decide)
      (by decide)⟩

/-- C9: re-assigning the value an account already holds succeeds and
    leaves the store extensionally unchanged, even when the group is
    full, because the capacity check excludes the account itself. -/
theorem c9_vs_reassign_same_value (m : VSMap) (a : ℕ) (g : String)
    (hwf : vsWellFormed m) (hinv : vsInvariant m)
    (hget : alistGet m (toString a) = some g)
    (hstr : pyStrip g = g) (hne : g ≠ "") :
    (update_vs m a g).success = true ∧ (update_vs m a g).state = m ∧
    ∀ k, alistGet (update_vs m a g).state k = alistGet m k := by
  have hcount := vsOthersWith_succ_le hget
  have hbound := hinv g hne
  have hfull : ¬ (vsOthersWith m a (pyStrip g)).length ≥ 2 := by
    rw [hstr]; omega
  have hs : pyStrip g ≠ "" := by rw [hstr]; exact hne
  have hset : alistSet m (toString a) (pyStrip g) = m := by
    rw [hstr]; exact alistSet_self_of_get hget
  refine ⟨by simp [update_vs, hs, hfull], by simp [update_vs, hs, hfull, hset], ?_⟩
  intro k
  simp [update_vs, hs, hfull, hset]

/-- Witness for C9: account 100 re-assigns G1 while G1 already holds
    accounts 100 and 200. -/
theorem c9_vs_reassign_same_value_witness :
    (update_vs [("100", "G1"), ("200", "G1")] 100 "G1").success = true ∧
    (update_vs [("100", "G1"), ("200", "G1")] 100 "G1").state =
      [("100", "G1"), ("200", "G1")] ∧
    ∀ k, alistGet (update_vs [("100", "G1"), ("200", "G1")] 100 "G1").state k =
      alistGet [("100", "G1"), ("200", "G1")] k :=
  c9_vs_reassign_same_value [("100", "G1"), ("200", "G1")] 100 "G1" (by decide)
    (vsInvariant_of_check (by decide)) (by decide) (by decide) (by decide)

/- ===== Smart Cache (cache.py) and account-to-agent map
   (account_vps_cache.py) ===== -/

/-- The parts of models.AccountData the cache claims touch. -/
structure AccountData where
  account_number : ℕ
  balance : ℚ
  phase : String
  vs_group : Option String
  deriving DecidableEq, Repr

/-- State of SmartCache: per-account entries (data, cached_at),
    per-agent status stamps, and the last full refresh stamp. -/
structure SmartCacheState where
  ttl_seconds : ℚ
  accounts : List (ℕ × (AccountData × ℚ))
  agent_statuses : List (String × ℚ)
  last_full_refresh : Option ℚ
  deriving DecidableEq, Repr

/-- SmartCache._is_expired. -/
def isExpired (c : SmartCacheState) (now cached_at : ℚ) : Bool :=
  now - cached_at > c.ttl_seconds

/-- SmartCache.get_account: the returned value and the state after the
    access (an expired entry is deleted during the access). -/
def get_account (c : SmartCacheState) (now : ℚ) (a : ℕ) :
    Option AccountData × SmartCacheState :=
  match alistGet c.accounts a with
  | none => (none, c)
  | some (d, t) =>
      if isExpired c now t then
        (none, { c with accounts := alistDel c.accounts a })
      else
        (some d, c)

/-- SmartCache.set_account. -/
def set_account (c : SmartCacheState) (now : ℚ) (d : AccountData) :
    SmartCacheState :=
  { c with accounts := alistSet c.accounts d.account_number (d, now) }

/-- SmartCache.set_accounts: bulk insert with one shared stamp, also
    setting last_full_refresh. -/
def set_accounts (c : SmartCacheState) (now : ℚ) (xs : List AccountData) :
    SmartCacheState :=
  { c with
      accounts := xs.foldl (fun acc d => alistSet acc d.account_number (d, now))
        c.accounts,
      last_full_refresh := some now }

/-- SmartCache.invalidate_account. -/
def invalidate_account (c : SmartCacheState) (a : ℕ) : SmartCacheState :=
  if alistHas c.accounts a then { c with accounts := alistDel c.accounts a } else c

/-- The fields update_account_field is used with (phase, vs_group). -/
inductive AccountField
  | phase
  | vs_group
  deriving DecidableEq, Repr

def setAccountField (d : AccountData) : AccountField → String → AccountData
  | .phase, v => { d with phase := v }
  | .vs_group, v => { d with vs_group := some v }

/-- SmartCache.update_account_field: only a fresh entry is updated, and
    the updated entry is re-stamped with the current time. -/
def update_account_field (c : SmartCacheState) (now : ℚ) (a : ℕ)
    (f : AccountField) (v : String) : Bool × SmartCacheState :=
  match alistGet c.accounts a with
  | none => (false, c)
  | some (d, t) =>
      if isExpired c now t then
        (false, { c with accounts := alistDel c.accounts a })
      else
        (true, { c with accounts := alistSet c.accounts a (setAccountField d f v, now) })

/-- SmartCache.clear. -/
def smartCacheClear (c : SmartCacheState) : SmartCacheState :=
  { c with accounts := [], agent_statuses := [], last_full_refresh := none }

/-- The account-to-agent map of account_vps_cache.py. -/
abbrev AccountVPSMap := List (ℕ × String)

/-- AccountVPSCache.clear. -/
def accountVpsClear (_ : AccountVPSMap) : AccountVPSMap := []

/-- POST /api/refresh (main.py force_refresh): clears the Smart Cache
    and then clears the account-to-agent map. -/
def force_refresh (c : SmartCacheState) (avc : AccountVPSMap) :
    SmartCacheState × AccountVPSMap :=
  (smartCacheClear c, accountVpsClear avc)

/-- Every cached stamp is at most `now`. -/
def stampsLE (c : SmartCacheState) (now : ℚ) : Prop :=
  ∀ p ∈ c.accounts, p.2.2 ≤ now

theorem mem_alistSet {κ β : Type} [DecidableEq κ]
    {m : List (κ × β)} {k : κ} {v : β} {x : κ × β}
    (h : x ∈ alistSet m k v) : x ∈ m ∨ x = (k, v) := by
  induction m with
  | nil => simpa [alistSet] using h
  | cons p t ih =>
      by_cases hk : p.1 = k
      · simp only [alistSet, if_pos hk, List.mem_cons] at h
        rcases h with h | h
        · right; exact h
        · left; simp [h]
      · simp only [alistSet, if_neg hk, List.mem_cons] at h
        rcases h with h | h
        · left; simp [h]
        · rcases ih h with h1 | h1
          · left; simp [h1]
          · right; exact h1

theorem mem_alistDel {κ β : Type} [DecidableEq κ]
    {m : List (κ × β)} {k : κ} {x : κ × β}
    (h : x ∈ alistDel m k) : x ∈ m := by
  induction m with
  | nil => simpa [alistDel] using h
  | cons p t ih =>
      by_cases hk : p.1 = k
      · simp only [alistDel, if_pos hk] at h
        simp [h]
      · simp only [alistDel, if_neg hk, List.mem_cons] at h
        rcases h with h | h
        · simp [h]
        · simp [ih h]

theorem stamps_foldl_set {now : ℚ} (xs : List AccountData) :
    ∀ acc : List (ℕ × (AccountData × ℚ)), (∀ p ∈ acc, p.2.2 ≤ now) →
      ∀ p ∈ xs.foldl (fun acc d => alistSet acc d.account_number (d, now)) acc,
        p.2.2 ≤ now := by
  induction xs with
  | nil => intro acc hacc p hp; exact hacc p (by simpa using hp)
  | cons d t ih =>
      intro acc hacc p hp
      refine ih (alistSet acc d.account_number (d, now)) ?_ p (by simpa using hp)
      intro q hq
      rcases mem_alistSet hq with h | h
      · exact hacc q h
      · simp [h]

/-- C7: a Smart Cache hit is always fresh (now minus cached_at is at
    most the TTL); an expired entry is deleted during the access and
    absent is returned; bulk insertion, single insertion and field
    update stamp every entry they store with a time at most now. -/
theorem c7_smart_cache_ttl :
    (∀ (c : SmartCacheState) (now : ℚ) (a : ℕ) (d : AccountData),
        (get_account c now a).1 = some d →
        ∃ t : ℚ, alistGet c.accounts a = some (d, t) ∧ now - t ≤ c.ttl_seconds) ∧
    (∀ (c : SmartCacheState) (now : ℚ) (a : ℕ) (d : AccountData) (t : ℚ),
        (alistKeys c.accounts).Nodup →
        alistGet c.accounts a = some (d, t) → now - t > c.ttl_seconds →
        (get_account c now a).1 = none ∧
        alistGet (get_account c now a).2.accounts a = none) ∧
    (∀ (c : SmartCacheState) (now : ℚ) (xs : List AccountData)
        (d : AccountData) (a : ℕ) (f : AccountField) (v : String),
        stampsLE c now →
        stampsLE (set_accounts c now xs) now ∧
        stampsLE (set_account c now d) now ∧
        stampsLE (update_account_field c now a f v).2 now) := by
  refine ⟨?_, ?_, ?_⟩
  · intro c now a d hget
    cases hga : alistGet c.accounts a with
    | none => simp [get_account, hga] at hget
    | some e =>
        obtain ⟨d0, t⟩ := e
        by_cases hex : isExpired c now t
        · simp [get_account, hga, hex] at hget
        · simp only [get_account, hga, if_neg hex] at hget
          simp only [Option.some.injEq] at hget
          subst hget
          exact ⟨t, hga.symm ▸ rfl, by simpa [isExpired, not_lt] using hex⟩
  · intro c now a d t hnd hga hexp
    have hex : isExpired c now t = true := by
      simpa [isExpired] using hexp
    constructor
    · simp [get_account, hga, hex]
    · simp only [get_account, hga, hex, if_pos]
      exact alistGet_alistDel_self hnd
  · intro c now xs d a f v hst
    refine ⟨?_, ?_, ?_⟩
    · intro p hp
      exact stamps_foldl_set xs c.accounts hst p (by simpa [set_accounts] using hp)
    · intro p hp
      simp only [set_account] at hp
      rcases mem_alistSet hp with h | h
      · exact hst p h
      · simp [h]
    · intro p hp
      cases hga : alistGet c.accounts a with
      | none =>
          simp only [update_account_field, hga] at hp
          exact hst p hp
      | some e =>
          obtain ⟨d0, t⟩ := e
          by_cases hex : isExpired c now t
          · simp only [update_account_field, hga, hex, if_pos] at hp
            exact hst p (mem_alistDel hp)
          · simp only [update_account_field, hga, if_neg hex] at hp
            rcases mem_alistSet hp with h | h
            · exact hst p h
            · simp [h]

/-- Witness for C7: a fresh hit at now = 6, an expired entry at
    now = 100, and stamping on a concrete store. -/
theorem c7_smart_cache_ttl_witness :
    (∃ t : ℚ,
        alistGet (SmartCacheState.mk 10 [(100, (AccountData.mk 100 5000 "F1" none, 5))] [] (some 5)).accounts 100
          = some (AccountData.mk 100 5000 "F1" none, t) ∧ (6 : ℚ) - t ≤ 10) ∧
    ((get_account (SmartCacheState.mk 10 [(100, (AccountData.mk 100 5000 "F1" none, 5))] [] (some 5)) 100 100).1 = none ∧
      alistGet (get_account (SmartCacheState.mk 10 [(100, (AccountData.mk 100 5000 "F1" none, 5))] [] (some 5)) 100 100).2.accounts 100 = none) ∧
    stampsLE (set_accounts (SmartCacheState.mk 10 [(100, (AccountData.mk 100 5000 "F1" none, 5))] [] (some 5)) 6
      [AccountData.mk 200 7000 "F2" none]) 6 :=
  ⟨c7_smart_cache_ttl.1 (SmartCacheState.mk 10 [(100, (AccountData.mk 100 5000 "F1" none, 5))] [] (some 5))
      6 100 (AccountData.mk 100 5000 "F1" none)
      (by
        have h : ¬ ((6 : ℚ) - 5 > 10) := by norm_num
        simp [get_account, alistGet, isExpired, h]),
   c7_smart_cache_ttl.2.1 (SmartCacheState.mk 10 [(100, (AccountData.mk 100 5000 "F1" none, 5))] [] (some 5))
      100 100 (AccountData.mk 100 5000 "F1" none) 5 (by decide) rfl (by norm_num),
   (c7_smart_cache_ttl.2.2 (SmartCacheState.mk 10 [(100, (AccountData.mk 100 5000 "F1" none, 5))] [] (some 5))
      6 [AccountData.mk 200 7000 "F2" none] (AccountData.mk 200 7000 "F2" none) 100
      AccountField.phase "F2"
      (by
        intro p hp
        simp only [List.mem_singleton] at hp
        subst hp
        norm_num)).1⟩

/-- C3 counterexample: POST /api/refresh does not leave the
    account-to-agent map unchanged; the binding of account 100 differs
    before and after the call. -/
theorem c3_refresh_counterexample :
    ¬ (alistGet (force_refresh (SmartCacheState.mk 10 [] [] none) [(100, "agent-1")]).2 100
        = alistGet [(100, "agent-1")] 100) := by decide

/-- C3 amended: POST /api/refresh clears every entry of the Smart Cache
    and also clears the account-to-agent map entirely. -/
theorem c3_refresh_clears_both (c : SmartCacheState) (avc : AccountVPSMap) :
    (force_refresh c avc).1.accounts = [] ∧
    (force_refresh c avc).1.agent_statuses = [] ∧
    (force_refresh c avc).1.last_full_refresh = none ∧
    (force_refresh c avc).2 = [] ∧
    ∀ a : ℕ, alistGet (force_refresh c avc).2 a = none := by
  refine ⟨rfl, rfl, rfl, rfl, ?_⟩
  intro a
  rfl

/- ===== Versus engine (main.py execute_congelar_internal /
   execute_transferir_internal) ===== -/

/-- A Versus record as consumed by the engine, mirroring
    models.VersusConfig (the shape read back from versus_data.json;
    ticket entries may be null, hence Option). -/
structure VersusConfigRec where
  id : String
  account_a : ℕ
  account_b : ℕ
  symbol : String
  lots : ℚ
  side : String
  tp_usd_a : ℚ
  sl_usd_a : ℚ
  tp_usd_b : ℚ
  sl_usd_b : ℚ
  status : String
  scheduled_congelar : Option ℚ
  scheduled_transferir : Option ℚ
  tickets_a : List (Option ℕ)
  tickets_b : List (Option ℕ)
  error_message : Option String
  deriving DecidableEq, Repr

/-- Quote payload from GET /quote/symbol; every field is read with
    a dict-get and a default. -/
structure QuoteBody where
  trade_tick_value : Option ℚ
  point : Option ℚ
  pip_value : Option ℚ
  spread_pips : Option ℚ
  bid : Option ℚ
  ask : Option ℚ
  deriving DecidableEq, Repr

/-- Parsed body of POST /positions/open and /positions/close replies. -/
structure OpenResponseBody where
  success : Bool
  ticket : Option ℕ
  message : Option String
  deriving DecidableEq, Repr

/-- The JSON payload the engine sends to POST /positions/open. -/
structure OpenRequest where
  symbol : String
  lot : ℚ
  order_type : String
  tp : ℚ
  sl : ℚ
  comment : String
  deriving DecidableEq, Repr

/-- The agent-side observations of one Congelar run: VPS resolution
    (after a possible refetch), agent config lookup, and the three HTTP
    interactions (quote, open BUY, open SELL).  The rollback close
    outcome is not a field: the source ignores it. -/
structure CongelarEnv where
  vpsSource : Option String
  agentConfigured : Bool
  quoteStatus : ℕ
  quoteBody : QuoteBody
  buyStatus : ℕ
  buyText : String
  buyBody : OpenResponseBody
  sellStatus : ℕ
  sellText : String
  sellBody : OpenResponseBody
  deriving DecidableEq, Repr

/-- usd_per_pip = trade_tick_value * (pip_value / point) * lots with the
    dict-get defaults of the source.  (A quote with point = 0 raises
    ZeroDivisionError in the source; here the quotient is 0, and the
    engine aborts on the usd_per_pip check in both cases.) -/
def congelarUsdPerPip (cfg : VersusConfigRec) (env : CongelarEnv) : ℚ :=
  (env.quoteBody.trade_tick_value.getD 1) *
    ((env.quoteBody.pip_value.getD (1/10000)) / (env.quoteBody.point.getD (1/100000))) *
    cfg.lots

/-- The message surfaced when opening BUY fails (HTTP failure uses the
    response text, an unsuccessful body uses its message). -/
def congelarBuyFailureMsg (env : CongelarEnv) : String :=
  if env.buyStatus ≠ 200 then "Failed to open BUY: " ++ env.buyText
  else "Failed to open BUY: " ++ (env.buyBody.message.getD "Unknown error")

/-- The message surfaced when opening SELL fails. -/
def congelarSellFailureMsg (env : CongelarEnv) : String :=
  if env.sellStatus ≠ 200 then "Failed to open SELL: " ++ env.sellText
  else "Failed to open SELL: " ++ (env.sellBody.message.getD "Unknown error")

/-- Result of one run of execute_congelar_internal: the raised or
    returned value, the tickets sent to /positions/close (the rollback),
    and the /positions/open requests issued. -/
structure CongelarRun where
  result : Except String (List (Option ℕ))
  closeCalls : List (Option ℕ)
  openCalls : List OpenRequest
  deriving Repr

/-- main.py execute_congelar_internal. -/
def execute_congelar_internal (versus_id : String)
    (cfg? : Option VersusConfigRec) (env : CongelarEnv) : CongelarRun :=
  match cfg? with
  | none => ⟨.error ("Versus " ++ versus_id ++ " not found"), [], []⟩
  | some cfg =>
    if cfg.status ≠ "pending" then
      ⟨.error ("Cannot congelar Versus in " ++ cfg.status ++ " status. Must be pending."), [], []⟩
    else match env.vpsSource with
    | none => ⟨.error "Account A not found in any VPS agent", [], []⟩
    | some _ =>
      if ¬ env.agentConfigured then
        ⟨.error "VPS agent config not found", [], []⟩
      else if env.quoteStatus ≠ 200 then
        ⟨.error ("Failed to get quote for " ++ cfg.symbol), [], []⟩
      else
        let usd_per_pip := congelarUsdPerPip cfg env
        if usd_per_pip ≤ 0 then
          ⟨.error ("Invalid pip value calculation for " ++ cfg.symbol), [], []⟩
        else
          let tp_pips := cfg.tp_usd_a / usd_per_pip
          let sl_pips := cfg.sl_usd_a / usd_per_pip
          let buyReq : OpenRequest :=
            ⟨cfg.symbol, cfg.lots, "BUY", pyRound tp_pips 1, pyRound sl_pips 1,
              "Versus-" ++ versus_id ++ "-BUY"⟩
          if env.buyStatus ≠ 200 then
            ⟨.error (congelarBuyFailureMsg env), [], [buyReq]⟩
          else if env.buyBody.success = false then
            ⟨.error (congelarBuyFailureMsg env), [], [buyReq]⟩
          else
            let buy_ticket := env.buyBody.ticket
            let sellReq : OpenRequest :=
              ⟨cfg.symbol, cfg.lots, "SELL", pyRound tp_pips 1, pyRound sl_pips 1,
                "Versus-" ++ versus_id ++ "-SELL"⟩
            if env.sellStatus ≠ 200 then
              ⟨.error (congelarSellFailureMsg env), [buy_ticket], [buyReq, sellReq]⟩
            else if env.sellBody.success = false then
              ⟨.error (congelarSellFailureMsg env), [buy_ticket], [buyReq, sellReq]⟩
            else
              ⟨.ok [buy_ticket, env.sellBody.ticket], [], [buyReq, sellReq]⟩

/-- VersusManager.update_status: only the supplied parts change. -/
def vmUpdateStatus (cfg : VersusConfigRec) (status : String)
    (tickets_a tickets_b : Option (List (Option ℕ)))
    (error_message : Option String) : VersusConfigRec :=
  { cfg with
      status := status
      tickets_a := tickets_a.getD cfg.tickets_a
      tickets_b := tickets_b.getD cfg.tickets_b
      error_message :=
        match error_message with
        | some m => some m
        | none => cfg.error_message }

/-- Generic HTTP endpoint outcome (FastAPI result or HTTPException). -/
inductive ApiOutcome (α : Type) where
  | ok (value : α)
  | httpError (status : ℕ) (detail : String)
  deriving DecidableEq, Repr

/-- POST /api/versus/id/congelar: runs the internal step; on success the
    internal step has stored status congelado with both tickets, on any
    exception the handler stores status error with the message.  Returns
    the endpoint outcome and the stored record. -/
def execute_congelar (versus_id : String)
    (cfg? : Option VersusConfigRec) (env : CongelarEnv) :
    ApiOutcome (List (Option ℕ)) × Option VersusConfigRec :=
  let run := execute_congelar_internal versus_id cfg? env
  match run.result with
  | .ok tickets =>
      (.ok tickets,
        cfg?.map (fun cfg => vmUpdateStatus cfg "congelado" (some tickets) none none))
  | .error e =>
      (.httpError 500 e,
        cfg?.map (fun cfg => vmUpdateStatus cfg "error" none none (some e)))

/-- C4: when Congelar opens BUY successfully (ticket t) and the SELL
    open is any non-success, the engine issues exactly one close (for t),
    surfaces the SELL failure regardless of the rollback outcome, and
    the stored record ends in status error with tickets_a empty. -/
theorem c4_congelar_rollback (versus_id : String) (cfg : VersusConfigRec)
    (env : CongelarEnv) (t : ℕ) (v : String)
    (hst : cfg.status = "pending") (htk : cfg.tickets_a = [])
    (hvps : env.vpsSource = some v) (hag : env.agentConfigured = true)
    (hq : env.quoteStatus = 200) (hup : 0 < congelarUsdPerPip cfg env)
    (hbs : env.buyStatus = 200) (hbok : env.buyBody.success = true)
    (hbt : env.buyBody.ticket = some t)
    (hsell : env.sellStatus ≠ 200 ∨ env.sellBody.success = false) :
    (execute_congelar_internal versus_id (some cfg) env).closeCalls = [some t] ∧
    (execute_congelar_internal versus_id (some cfg) env).result
      = .error (congelarSellFailureMsg env) ∧
    (execute_congelar versus_id (some cfg) env).1
      = .httpError 500 (congelarSellFailureMsg env) ∧
    (∀ c', (execute_congelar versus_id (some cfg) env).2 = some c' →
      c'.status = "error" ∧ c'.tickets_a = []) := by
  have hnup : ¬ (congelarUsdPerPip cfg env ≤ 0) := not_le.mpr hup
  have hrun : (execute_congelar_internal versus_id (some cfg) env).closeCalls
        = [some t] ∧
      (execute_congelar_internal versus_id (some cfg) env).result
        = .error (congelarSellFailureMsg env) := by
    rcases hsell with hs | hs
    · constructor <;>
        simp [execute_congelar_internal, hvps, hst, hag, hq, hnup, hbs, hbok,
          hs, hbt]
    · by_cases hss : env.sellStatus ≠ 200
      · constructor <;>
          simp [execute_congelar_internal, hvps, hst, hag, hq, hnup, hbs, hbok,
            hss, hbt]
      · constructor <;>
          simp [execute_congelar_internal, hvps, hst, hag, hq, hnup, hbs, hbok,
            hss, hs, hbt]
  refine ⟨hrun.1, hrun.2, ?_, ?_⟩
  · simp [execute_congelar, hrun.2]
  · intro c' hc'
    simp [execute_congelar, hrun.2] at hc'
    rw [← hc']
    simp [vmUpdateStatus, htk]

/-- Record for the C4 witness: spec scenario 4 (pending Versus on
    accounts 100 and 200, BUY 1 lot EURUSD). -/
def cfgC4 : VersusConfigRec :=
  ⟨"w4", 100, 200, "EURUSD", 1, "BUY", 50, 25, 50, 25, "pending",
    none, none, [], [], none⟩

/-- Environment for the C4 witness: the agent accepts BUY with ticket
    1001 and rejects SELL. -/
def envC4 : CongelarEnv :=
  ⟨some "agent-1", true, 200,
    ⟨some 1, some (1/100000), some (1/10000), some 1, some (11/10), some (110010/100000)⟩,
    200, "", ⟨true, some 1001, none⟩,
    200, "", ⟨false, none, some "SELL rejected"⟩⟩

/-- Witness for C4 at the spec scenario: ticket 1001 is closed once and
    the record ends in error with no tickets. -/
theorem c4_congelar_rollback_witness :
    (execute_congelar_internal "w4" (some cfgC4) envC4).closeCalls = [some 1001] ∧
    (execute_congelar_internal "w4" (some cfgC4) envC4).result
      = .error (congelarSellFailureMsg envC4) ∧
    (execute_congelar "w4" (some cfgC4) envC4).1
      = .httpError 500 (congelarSellFailureMsg envC4) ∧
    (∀ c', (execute_congelar "w4" (some cfgC4) envC4).2 = some c' →
      c'.status = "error" ∧ c'.tickets_a = []) :=
  c4_congelar_rollback "w4" cfgC4 envC4 1001 "agent-1" rfl rfl rfl rfl rfl
    (by norm_num [congelarUsdPerPip, cfgC4, envC4]) rfl rfl rfl (Or.inr rfl)

/-- A position entry as read from GET /positions (commission defaults
    to 0 when the key is absent; volume is a dict-get with the lot
    fallback). -/
structure PositionEntry where
  ticket : ℕ
  commission : ℚ
  volume : Option ℚ
  deriving DecidableEq, Repr

/-- Agent-side observations of one Transferir run. -/
structure TransferirEnv where
  vpsA : Option String
  vpsB : Option String
  agentAConfigured : Bool
  agentBConfigured : Bool
  positionsStatus : ℕ
  positions : List PositionEntry
  quoteStatus : ℕ
  quoteBody : QuoteBody
  closeStatus : ℕ
  closeText : String
  closeBody : OpenResponseBody
  modifyStatus : ℕ
  openB1Status : ℕ
  openB1Text : String
  openB1Body : OpenResponseBody
  openB2Status : ℕ
  openB2Text : String
  openB2Body : OpenResponseBody
  deriving DecidableEq, Repr

/-- Decimal places by symbol class: 3 for JPY symbols, 2 for crypto and
    metals (BTC, ETH, XRP, LTC, BCH, XAU, XAG), 5 otherwise. -/
def transferirDecimals (symbol : String) : ℕ :=
  if strContains (pyUpper symbol) "JPY" then 3
  else if ["BTC", "ETH", "XRP", "LTC", "BCH", "XAU", "XAG"].any
      (fun p => strStarts (pyUpper symbol) p) then 2
  else 5

/-- Reference price: the bid when side = BUY, the ask when side = SELL. -/
def transferirCurrentPrice (cfg : VersusConfigRec) (env : TransferirEnv) : ℚ :=
  if cfg.side = "BUY" then env.quoteBody.bid.getD 0 else env.quoteBody.ask.getD 0

/-- usd_per_pip for Transferir, same formula and defaults as Congelar. -/
def transferirUsdPerPip (cfg : VersusConfigRec) (env : TransferirEnv) : ℚ :=
  (env.quoteBody.trade_tick_value.getD 1) *
    ((env.quoteBody.pip_value.getD (1/10000)) / (env.quoteBody.point.getD (1/100000))) *
    cfg.lots

/-- commission_per_lot: first position with non-zero commission,
    abs(commission) / volume (volume defaulting to the lots). -/
def commissionPerLot (positions : List PositionEntry) (lots : ℚ) : ℚ :=
  match positions.find? (fun p => decide (p.commission ≠ 0)) with
  | some p => |p.commission| / (p.volume.getD lots)
  | none => 0

/-- Positions are only read when GET /positions answered 200. -/
def transferirPositions (env : TransferirEnv) : List PositionEntry :=
  if env.positionsStatus = 200 then env.positions else []

/-- commission_pips = commission_per_lot * lots * 2 / usd_per_pip. -/
def transferirCommissionPips (cfg : VersusConfigRec) (env : TransferirEnv) : ℚ :=
  let upp := transferirUsdPerPip cfg env
  let total := commissionPerLot (transferirPositions env) cfg.lots * cfg.lots * 2
  if upp > 0 then total / upp else 0

/-- The per-side leg selection and price maths of Transferir. -/
structure TransferirMath where
  ticket_to_close : ℕ
  remaining_ticket : ℕ
  new_tp_pips_a : ℚ
  new_sl_pips_a : ℚ
  tp_price_a : ℚ
  sl_price_a : ℚ
  opposite_side : String
  tp_pips_b_send : ℚ
  sl_pips_b_send : ℚ
  deriving DecidableEq, Repr

/-- The side-dependent block of execute_transferir_internal: BUY keeps
    the BUY ticket and subtracts the spread, SELL keeps the SELL ticket
    and adds it; prices are rounded to the symbol-class decimals and the
    pips sent to B to one decimal. -/
def transferirMath (cfg : VersusConfigRec) (env : TransferirEnv)
    (buy_ticket sell_ticket : ℕ) : TransferirMath :=
  let spread_pips := env.quoteBody.spread_pips.getD 0
  let pip_value := env.quoteBody.pip_value.getD (1/10000)
  let decimals := transferirDecimals cfg.symbol
  let current_price := transferirCurrentPrice cfg env
  let usd_per_pip := transferirUsdPerPip cfg env
  let commission_pips := transferirCommissionPips cfg env
  let tp_pips_b := cfg.tp_usd_b / usd_per_pip
  let sl_pips_b := cfg.sl_usd_b / usd_per_pip
  if cfg.side = "BUY" then
    let ntp := sl_pips_b - spread_pips - commission_pips
    let nsl := tp_pips_b - spread_pips - commission_pips
    ⟨sell_ticket, buy_ticket, ntp, nsl,
      pyRound (current_price + ntp * pip_value) decimals,
      pyRound (current_price - nsl * pip_value) decimals,
      "SELL",
      pyRound (tp_pips_b - spread_pips - commission_pips) 1,
      pyRound (sl_pips_b - spread_pips - commission_pips) 1⟩
  else
    let ntp := sl_pips_b + spread_pips - commission_pips
    let nsl := tp_pips_b + spread_pips - commission_pips
    ⟨buy_ticket, sell_ticket, ntp, nsl,
      pyRound (current_price - ntp * pip_value) decimals,
      pyRound (current_price + nsl * pip_value) decimals,
      "BUY",
      pyRound (tp_pips_b + spread_pips - commission_pips) 1,
      pyRound (sl_pips_b + spread_pips - commission_pips) 1⟩

/-- Result of one run of execute_transferir_internal: raised or
    returned value (the B tickets), the close, modify and open-B calls
    issued. -/
structure TransferirRun where
  result : Except String (List (Option ℕ))
  closeCalls : List ℕ
  modifyCalls : List (ℕ × ℚ × ℚ)
  openBCalls : List OpenRequest
  deriving Repr

/-- main.py execute_transferir_internal (store updates are applied by
    the caller on the raised error, as in execute_congelar). -/
def execute_transferir_internal (versus_id : String)
    (cfg? : Option VersusConfigRec) (env : TransferirEnv) : TransferirRun :=
  match cfg? with
  | none => ⟨.error ("Versus " ++ versus_id ++ " not found"), [], [], []⟩
  | some cfg =>
    if cfg.status ≠ "congelado" then
      ⟨.error ("Cannot transferir Versus in " ++ cfg.status ++ " status. Must be congelado."), [], [], []⟩
    else if cfg.tickets_a.length ≠ 2 then
      ⟨.error "Expected 2 tickets on Account A", [], [], []⟩
    else match env.vpsA, env.vpsB with
    | none, _ => ⟨.error "Account A not found", [], [], []⟩
    | some _, none => ⟨.error "Account B not found", [], [], []⟩
    | some _, some _ =>
      if ¬ env.agentAConfigured then ⟨.error "VPS config not found for agent A", [], [], []⟩
      else if ¬ env.agentBConfigured then ⟨.error "VPS config not found for agent B", [], [], []⟩
      else match cfg.tickets_a.get? 0, cfg.tickets_a.get? 1 with
      | some (some buy_ticket), some (some sell_ticket) =>
        if env.quoteStatus ≠ 200 then
          ⟨.error ("Failed to get quote for " ++ cfg.symbol), [], [], []⟩
        else
          let current_price := transferirCurrentPrice cfg env
          if current_price ≤ 0 then
            ⟨.error "Invalid current price from quote", [], [], []⟩
          else
            let usd_per_pip := transferirUsdPerPip cfg env
            if usd_per_pip ≤ 0 then
              ⟨.error ("Invalid pip value calculation for " ++ cfg.symbol), [], [], []⟩
            else
              let m := transferirMath cfg env buy_ticket sell_ticket
              if env.closeStatus ≠ 200 then
                ⟨.error ("Failed to close opposite position: " ++ env.closeText),
                  [m.ticket_to_close], [], []⟩
              else if env.closeBody.success = false then
                ⟨.error ("Failed to close position: " ++ (env.closeBody.message.getD "None")),
                  [m.ticket_to_close], [], []⟩
              else
                let modifyCalls := [(m.remaining_ticket, m.tp_price_a, m.sl_price_a)]
                let half_lots := pyRound (cfg.lots / 2) 2
                let req1 : OpenRequest :=
                  ⟨cfg.symbol, half_lots, m.opposite_side, m.tp_pips_b_send,
                    m.sl_pips_b_send, "Versus-" ++ versus_id ++ "-B1"⟩
                let req2 : OpenRequest :=
                  ⟨cfg.symbol, half_lots, m.opposite_side, m.tp_pips_b_send,
                    m.sl_pips_b_send, "Versus-" ++ versus_id ++ "-B2"⟩
                if env.openB1Status ≠ 200 then
                  ⟨.error ("Failed to open trade on Account B: " ++ env.openB1Text),
                    [m.ticket_to_close], modifyCalls, [req1]⟩
                else if env.openB1Body.success = false then
                  ⟨.error "Failed to open trade on Account B",
                    [m.ticket_to_close], modifyCalls, [req1]⟩
                else if env.openB2Status ≠ 200 then
                  ⟨.error ("Failed to open trade on Account B: " ++ env.openB2Text),
                    [m.ticket_to_close], modifyCalls, [req1, req2]⟩
                else if env.openB2Body.success = false then
                  ⟨.error "Failed to open trade on Account B",
                    [m.ticket_to_close], modifyCalls, [req1, req2]⟩
                else
                  ⟨.ok [env.openB1Body.ticket, env.openB2Body.ticket],
                    [m.ticket_to_close], modifyCalls, [req1, req2]⟩
      | _, _ => ⟨.error "int argument must be an int, not NoneType", [], [], []⟩

/-- Record for C5: spec scenario 5 (congelado, BUY 1 lot EURUSD,
    tickets 1001 and 1002 on A). -/
def cfgC5 : VersusConfigRec :=
  ⟨"c5", 100, 200, "EURUSD", 1, "BUY", 50, 25, 50, 25, "congelado",
    none, none, [some 1001, some 1002], [], none⟩

/-- Environment for C5: the quote of scenario 5, no commission data,
    all trade calls succeed. -/
def envC5 : TransferirEnv :=
  ⟨some "agent-1", some "agent-2", true, true,
    200, [],
    200, ⟨some 1, some (1/100000), some (1/10000), some 1, some (11/10), some (110010/100000)⟩,
    200, "", ⟨true, none, none⟩,
    200,
    200, "", ⟨true, some 2001, none⟩,
    200, "", ⟨true, some 2002, none⟩⟩

/-- C5: on scenario 5 the engine computes usd_per_pip = 10,
    tp_pips_b = 5, sl_pips_b = 2.5, new_tp_pips_a = 1.5,
    tp_price_a = 1.10015 at five decimals, and opens the two B legs as
    SELL of 0.5 lots each with tp 4 and sl 1.5 pips. -/
theorem c5_transferir_math :
    transferirUsdPerPip cfgC5 envC5 = 10 ∧
    cfgC5.tp_usd_b / transferirUsdPerPip cfgC5 envC5 = 5 ∧
    cfgC5.sl_usd_b / transferirUsdPerPip cfgC5 envC5 = 5 / 2 ∧
    transferirCommissionPips cfgC5 envC5 = 0 ∧
    (transferirMath cfgC5 envC5 1001 1002).new_tp_pips_a = 3 / 2 ∧
    transferirDecimals cfgC5.symbol = 5 ∧
    (transferirMath cfgC5 envC5 1001 1002).tp_price_a = 110015 / 100000 ∧
    (transferirMath cfgC5 envC5 1001 1002).opposite_side = "SELL" ∧
    (transferirMath cfgC5 envC5 1001 1002).tp_pips_b_send = 4 ∧
    (transferirMath cfgC5 envC5 1001 1002).sl_pips_b_send = 3 / 2 ∧
    pyRound (cfgC5.lots / 2) 2 = 1 / 2 ∧
    (execute_transferir_internal "c5" (some cfgC5) envC5).openBCalls =
      [⟨"EURUSD", 1 / 2, "SELL", 4, 3 / 2, "Versus-c5-B1"⟩,
       ⟨"EURUSD", 1 / 2, "SELL", 4, 3 / 2, "Versus-c5-B2"⟩] := by
  have h_upp : transferirUsdPerPip cfgC5 envC5 = 10 := by
    norm_num [transferirUsdPerPip, cfgC5, envC5]
  have h_comm : transferirCommissionPips cfgC5 envC5 = 0 := by
    norm_num [transferirCommissionPips, transferirPositions, commissionPerLot,
      transferirUsdPerPip, cfgC5, envC5, List.find?]
  have h_dec : transferirDecimals "EURUSD" = 5 := by decide
  have h_math : transferirMath cfgC5 envC5 1001 1002
      = ⟨1002, 1001, 3 / 2, 4, 22003 / 20000, 2749 / 2500, "SELL", 4, 3 / 2⟩ := by
    simp only [transferirMath, cfgC5, envC5, transferirCurrentPrice,
      transferirUsdPerPip, transferirCommissionPips, transferirPositions,
      commissionPerLot, List.find?]
    norm_num [h_dec, pyRound]
  have h_cpne : ¬ (transferirCurrentPrice cfgC5 envC5 ≤ 0) := by
    norm_num [transferirCurrentPrice, cfgC5, envC5]
  have h_uppne : ¬ (transferirUsdPerPip cfgC5 envC5 ≤ 0) := by
    rw [h_upp]; norm_num
  have h_half : pyRound (cfgC5.lots / 2) 2 = 1 / 2 := by
    norm_num [pyRound, cfgC5]
  have h_sym : cfgC5.symbol = "EURUSD" := rfl
  have h_run : (execute_transferir_internal "c5" (some cfgC5) envC5).openBCalls =
      [⟨"EURUSD", 1 / 2, "SELL", 4, 3 / 2, "Versus-c5-B1"⟩,
       ⟨"EURUSD", 1 / 2, "SELL", 4, 3 / 2, "Versus-c5-B2"⟩] := by
    have h_mathL := h_math
    have h_cpneL := h_cpne
    have h_uppneL := h_uppne
    have h_halfL := h_half
    simp only [cfgC5, envC5] at h_mathL h_cpneL h_uppneL h_halfL
    simp [execute_transferir_internal, cfgC5, envC5, h_halfL]
    norm_num [transferirMath, transferirCurrentPrice, transferirUsdPerPip,
      transferirCommissionPips, transferirPositions, commissionPerLot,
      List.find?, h_dec, pyRound]
  refine ⟨h_upp, by rw [h_upp]; norm_num [cfgC5], by rw [h_upp]; norm_num [cfgC5],
    h_comm, by rw [h_math], by rw [h_sym]; exact h_dec, by rw [h_math]; norm_num,
    by rw [h_math], by rw [h_math], by rw [h_math], h_half, h_run⟩

/- ===== GET /api/accounts/id/positions (main.py get_account_positions) ===== -/

/-- The payload of a positions listing. -/
structure PositionsResult where
  account_number : ℕ
  positions : List PositionEntry
  total_profit : ℚ
  position_count : ℕ
  deriving DecidableEq, Repr

/-- One observed agent interaction: an HTTP reply (status, raw text,
    parsed body) or a transport failure. -/
inductive AgentHttp (α : Type) where
  | http (status : ℕ) (text : String) (body : α)
  | timeoutErr
  | connectErr
  deriving DecidableEq, Repr

/-- The empty positions payload the endpoint fabricates. -/
def emptyPositions (accountNumber : ℕ) : PositionsResult :=
  ⟨accountNumber, [], 0, 0⟩

/-- main.py get_account_positions: a resolution miss gives 404, a
    missing agent config 500; an agent 404 reply, a timeout, and a
    connection error are downgraded to an empty 200 payload; any other
    non-200 agent status is surfaced as an HTTPException with that
    status. -/
def get_account_positions (accountNumber : ℕ) (vps : Option String)
    (agentConfigured : Bool) (resp : AgentHttp PositionsResult) :
    ApiOutcome PositionsResult :=
  match vps with
  | none => .httpError 404 "Account not found in any VPS agent"
  | some _ =>
    if ¬ agentConfigured then
      .httpError 500 "VPS agent configuration not found"
    else match resp with
    | .http s text body =>
        if s = 404 then .ok (emptyPositions accountNumber)
        else if s ≠ 200 then .httpError s ("VPS agent returned error: " ++ text)
        else .ok body
    | .timeoutErr => .ok (emptyPositions accountNumber)
    | .connectErr => .ok (emptyPositions accountNumber)

/-- C10: the positions endpoint downgrades an agent 404 (as well as
    timeouts and connection errors) to a 200 reply with the empty
    payload, while any other non-200 agent status is surfaced as an
    error with that status; a 200 reply is passed through. -/
theorem c10_positions_404_downgrade (n : ℕ) (v text : String)
    (body : PositionsResult) :
    (get_account_positions n (some v) true (.http 404 text body)
        = .ok (emptyPositions n) ∧
      emptyPositions n = ⟨n, [], 0, 0⟩) ∧
    (∀ s : ℕ, s ≠ 200 → s ≠ 404 →
      get_account_positions n (some v) true (.http s text body)
        = .httpError s ("VPS agent returned error: " ++ text)) ∧
    get_account_positions n (some v) true .timeoutErr = .ok (emptyPositions n) ∧
    get_account_positions n (some v) true .connectErr = .ok (emptyPositions n) ∧
    get_account_positions n (some v) true (.http 200 text body) = .ok body := by
  refine ⟨⟨by simp [get_account_positions], rfl⟩, ?_, rfl, rfl,
    by simp [get_account_positions]⟩
  intro s h200 h404
  simp [get_account_positions, h200, h404]

/-- Witness for C10 at a concrete 500 reply. -/
theorem c10_positions_404_downgrade_witness :
    get_account_positions 100 (some "agent-1") true
        (.http 500 "boom" ⟨100, [], 0, 0⟩)
      = .httpError 500 ("VPS agent returned error: " ++ "boom") :=
  (c10_positions_404_downgrade 100 "agent-1" "boom" ⟨100, [], 0, 0⟩).2.1 500
    (by decide) (by decide)

/- ===== POST /api/versus: main.py create_versus against
   versus_manager.VersusManager.create ===== -/

/-- models.CreateVersusRequest. -/
structure CreateVersusRequest where
  account_a : ℕ
  account_b : ℕ
  symbol : String
  lots : ℚ
  side : String
  tp_usd_a : ℚ
  sl_usd_a : ℚ
  tp_usd_b : ℚ
  sl_usd_b : ℚ
  scheduled_congelar : Option ℚ
  scheduled_transferir : Option ℚ
  holder_a : String
  prop_firm_a : String
  holder_b : String
  prop_firm_b : String
  deriving DecidableEq, Repr

/-- The parameters of VersusManager.create as defined in
    versus_manager.py (self excluded). -/
def versusCreateParams : List String :=
  ["account_a", "account_b", "symbol", "lots", "side", "tp_pips", "sl_pips",
    "scheduled_congelar"]

/-- A Python value passed as a keyword argument. -/
inductive PyVal where
  | pyInt (n : ℕ)
  | pyNum (q : ℚ)
  | pyStr (s : String)
  | pyTime (t : Option ℚ)
  deriving DecidableEq, Repr

/-- The keyword arguments main.py create_versus passes to
    versus_manager.create. -/
def createVersusCallKwargs (req : CreateVersusRequest) : List (String × PyVal) :=
  [("account_a", .pyInt req.account_a),
   ("account_b", .pyInt req.account_b),
   ("symbol", .pyStr req.symbol),
   ("lots", .pyNum req.lots),
   ("side", .pyStr req.side),
   ("tp_usd_a", .pyNum req.tp_usd_a),
   ("sl_usd_a", .pyNum req.sl_usd_a),
   ("tp_usd_b", .pyNum req.tp_usd_b),
   ("sl_usd_b", .pyNum req.sl_usd_b),
   ("scheduled_congelar", .pyTime req.scheduled_congelar),
   ("scheduled_transferir", .pyTime req.scheduled_transferir),
   ("holder_a", .pyStr req.holder_a),
   ("prop_firm_a", .pyStr req.prop_firm_a),
   ("holder_b", .pyStr req.holder_b),
   ("prop_firm_b", .pyStr req.prop_firm_b)]

/-- A record as built by VersusManager.create of versus_manager.py
    (tp_pips and sl_pips, one schedule, no holders, no
    scheduled_transferir). -/
structure CreatedVersus where
  account_a : ℕ
  account_b : ℕ
  symbol : String
  lots : ℚ
  side : String
  tp_pips : ℚ
  sl_pips : ℚ
  status : String
  scheduled_congelar : Option ℚ
  tickets_a : List ℕ
  tickets_b : List ℕ
  error_message : Option String
  deriving DecidableEq, Repr

/-- The body of VersusManager.create: uppercased symbol and side,
    status pending, empty ticket lists. -/
def versusManagerCreate (account_a account_b : ℕ) (symbol : String) (lots : ℚ)
    (side : String) (tp_pips sl_pips : ℚ) (scheduled_congelar : Option ℚ) :
    CreatedVersus :=
  ⟨account_a, account_b, pyUpper symbol, lots, pyUpper side, tp_pips, sl_pips,
    "pending", scheduled_congelar, [], [], none⟩

/-- Keyword binding of the create call: every keyword must name a
    parameter and every required parameter must receive a value,
    otherwise the call raises TypeError. -/
def bindVersusCreate (req : CreateVersusRequest) : Except String CreatedVersus :=
  let kw := createVersusCallKwargs req
  if ¬ (kw.all (fun p => versusCreateParams.contains p.1)) then
    .error "TypeError: create got an unexpected keyword argument"
  else
    match alistGet kw "account_a", alistGet kw "account_b", alistGet kw "symbol",
        alistGet kw "lots", alistGet kw "side", alistGet kw "tp_pips",
        alistGet kw "sl_pips" with
    | some (.pyInt a), some (.pyInt b), some (.pyStr sym), some (.pyNum l),
        some (.pyStr sd), some (.pyNum tp), some (.pyNum sl) =>
        .ok (versusManagerCreate a b sym l sd tp sl
          (match alistGet kw "scheduled_congelar" with
           | some (.pyTime t) => t
           | _ => none))
    | _, _, _, _, _, _, _ =>
        .error "TypeError: create missing required arguments"

/-- main.py create_versus: the three validations, then the call into
    versus_manager.create; an exception is answered 500. -/
def create_versus (req : CreateVersusRequest) : ApiOutcome CreatedVersus :=
  if req.account_a = req.account_b then
    .httpError 400 "Account A and Account B must be different"
  else if req.lots ≤ 0 then
    .httpError 400 "Lots must be greater than 0"
  else if ¬ (pyUpper req.side = "BUY" ∨ pyUpper req.side = "SELL") then
    .httpError 400 "Side must be BUY or SELL"
  else
    match bindVersusCreate req with
    | .ok cfg => .ok cfg
    | .error e => .httpError 500 e

/-- A fully valid create request (spec scenario 4 parameters). -/
def reqC1 : CreateVersusRequest :=
  ⟨100, 200, "EURUSD", 1, "BUY", 50, 25, 50, 25, none, none, "", "", "", ""⟩

/-- C1: the claim fails on the code: a valid create request passes all
    three validations and is then answered 500, because main.py passes
    keyword arguments (tp_usd_a, sl_usd_a, tp_usd_b, sl_usd_b,
    scheduled_transferir, holders) that versus_manager.create does not
    accept, raising TypeError before any record is persisted. -/
theorem c1_create_versus_typeerror :
    (reqC1.account_a ≠ reqC1.account_b ∧ 0 < reqC1.lots ∧
      pyUpper reqC1.side = "BUY") ∧
    (createVersusCallKwargs reqC1).all
      (fun p => versusCreateParams.contains p.1) = false ∧
    create_versus reqC1
      = .httpError 500 "TypeError: create got an unexpected keyword argument" := by
  have h1 : ¬ (reqC1.account_a = reqC1.account_b) := by decide
  have h2 : ¬ (reqC1.lots ≤ 0) := by norm_num [reqC1]
  have h3 : pyUpper reqC1.side = "BUY" := by decide
  have hall : (createVersusCallKwargs reqC1).all
      (fun p => versusCreateParams.contains p.1) = false := by decide
  have h4 : bindVersusCreate reqC1
      = .error "TypeError: create got an unexpected keyword argument" := rfl
  refine ⟨⟨h1, by norm_num [reqC1], h3⟩, hall, ?_⟩
  simp [create_versus, h1, h2, h3, h4]

/- ===== Scheduler (main.py check_scheduled_versus against
   versus_manager.VersusManager) ===== -/

/-- The attributes (methods) defined on VersusManager in
    versus_manager.py. -/
def versusManagerMethods : List String :=
  ["_ensure_data_directory", "load_configs", "save_configs", "create", "get",
    "get_all", "update_status", "delete", "get_pending_scheduled"]

/-- VersusManager.get_pending_scheduled: pending records whose
    scheduled_congelar is set and has passed. -/
def get_pending_scheduled (store : List VersusConfigRec) (now : ℚ) :
    List VersusConfigRec :=
  store.filter (fun c => c.status = "pending" &&
    (match c.scheduled_congelar with
     | some ts => decide (ts ≤ now)
     | none => false))

/-- Modelled from the spec: the scan for records in congelado whose
    scheduled_transferir has passed.  The method
    get_pending_scheduled_transferir that main.py calls for this scan
    does not exist in versus_manager.py; this is its specified
    behaviour. -/
def get_pending_scheduled_transferir_spec (store : List VersusConfigRec)
    (now : ℚ) : List VersusConfigRec :=
  store.filter (fun c => c.status = "congelado" &&
    (match c.scheduled_transferir with
     | some ts => decide (ts ≤ now)
     | none => false))

/-- The transferir phase of one scheduler iteration: the attribute
    lookup versus_manager.get_pending_scheduled_transferir either
    resolves to the scan or raises AttributeError. -/
def schedulerTransferirScan (store : List VersusConfigRec) (now : ℚ) :
    Except String (List VersusConfigRec) :=
  if versusManagerMethods.contains "get_pending_scheduled_transferir" then
    .ok (get_pending_scheduled_transferir_spec store now)
  else
    .error "AttributeError: VersusManager object has no attribute get_pending_scheduled_transferir"

/-- The record ids one scheduler iteration actually executes Transferir
    for: the AttributeError propagates to the iteration's outer
    exception handler, which only logs, so nothing is executed. -/
def schedulerTransferirExecuted (store : List VersusConfigRec) (now : ℚ) :
    List String :=
  match schedulerTransferirScan store now with
  | .ok due => due.map (·.id)
  | .error _ => []

/-- A congelado record whose scheduled_transferir (time 50) is due at
    now = 100. -/
def cfgC2 : VersusConfigRec :=
  ⟨"c2", 100, 200, "EURUSD", 1, "BUY", 50, 25, 50, 25, "congelado",
    none, some 50, [some 1001, some 1002], [], none⟩

/-- C2: the claim fails on the code: VersusManager has no
    get_pending_scheduled_transferir, so although the record is due per
    the specified scan, the scheduler iteration raises AttributeError
    and executes no Transferir at all. -/
theorem c2_scheduler_transferir_bug :
    versusManagerMethods.contains "get_pending_scheduled_transferir" = false ∧
    get_pending_scheduled_transferir_spec [cfgC2] 100 = [cfgC2] ∧
    schedulerTransferirExecuted [cfgC2] 100 = [] := by
  have hc : versusManagerMethods.contains "get_pending_scheduled_transferir"
      = false := by decide
  refine ⟨hc, ?_, ?_⟩
  · have h50 : ((50 : ℚ) ≤ 100) := by norm_num
    simp [get_pending_scheduled_transferir_spec, cfgC2, List.filter, h50]
  · have hc2 : "get_pending_scheduled_transferir" ∉ versusManagerMethods := by
      decide
    simp [schedulerTransferirExecuted, schedulerTransferirScan, hc2]

/- ===== GET /api/accounts/id/trade-history (main.py get_trade_history
   against aggregator.DataAggregator.fetch_trade_history) ===== -/

/-- The parameters of DataAggregator.fetch_trade_history in
    aggregator.py (self excluded; days has a default). -/
def fetchTradeHistoryParams : List String := ["account_number", "days"]

/-- The aggregator call the endpoint makes, or the TypeError raised
    while binding it. -/
inductive TradeHistoryFetchCall where
  | withFromDate (from_date : ℚ)
  | withDays (days : ℕ)
  | typeErrorRaised (msg : String)
  deriving DecidableEq, Repr

/-- main.py get_trade_history up to the aggregator call: with a last
    sync time it calls fetch_trade_history(account_number,
    from_date=last_sync_time), which binds only if from_date names a
    parameter; without one it calls fetch_trade_history(account_number,
    days=30). -/
def get_trade_history_fetch_call (lastSync : Option ℚ) : TradeHistoryFetchCall :=
  match lastSync with
  | some t =>
      if fetchTradeHistoryParams.contains "from_date" then .withFromDate t
      else .typeErrorRaised "fetch_trade_history got an unexpected keyword argument from_date"
  | none =>
      if fetchTradeHistoryParams.contains "days" then .withDays 30
      else .typeErrorRaised "fetch_trade_history got an unexpected keyword argument days"

/-- The endpoint outcome as far as the fetch stage decides it: a raised
    TypeError is caught by the handler and answered as HTTP 500. -/
def get_trade_history_outcome (lastSync : Option ℚ) :
    Except (ℕ × String) TradeHistoryFetchCall :=
  match get_trade_history_fetch_call lastSync with
  | .typeErrorRaised m => .error (500, "Failed to fetch trade history: " ++ m)
  | c => .ok c

/-- C8: the claim fails on the code: whenever a last sync time exists
    the endpoint tries fetch_trade_history(account_number, from_date=t),
    but aggregator.py only accepts (account_number, days), so the call
    raises TypeError and the endpoint answers 500; only the no-sync-time
    path (days = 30) ever reaches an agent. -/
theorem c8_trade_history_incremental_bug :
    fetchTradeHistoryParams.contains "from_date" = false ∧
    get_trade_history_fetch_call (some 777)
      = .typeErrorRaised "fetch_trade_history got an unexpected keyword argument from_date" ∧
    get_trade_history_outcome (some 777)
      = .error (500, "Failed to fetch trade history: fetch_trade_history got an unexpected keyword argument from_date") ∧
    get_trade_history_fetch_call none = .withDays 30 :=
  ⟨by decide, rfl, rfl, rfl⟩
